import Mathlib

/-!
Verification of the APDU transport layer of pySim
(`pySim/transport/__init__.py` and `pySim/transport/pcsc.py`).

APDUs, response data and status words are hexadecimal strings in the
source; they are embedded as `List Char`.  The raw transmission
capability (`self.send_apdu_raw`, resolved by dynamic dispatch and
specified externally in the spec as RawChannel) is a parameter
`ch : RawCh`: its first argument is the index of the raw call (how many
raw transmissions happened before), so a single parameter can describe a
channel that fails on some calls and succeeds on others; its result is
either an exception or a `(data, sw)` response.  Every send function
additionally returns the trace of pdus it handed to the raw channel, in
order, so that claims about the number and content of raw transmissions
can be stated.
-/

/-- Exceptions of pySim relevant to the transport layer
(`pySim/exceptions.py`): card/reader absence faults, protocol faults,
and a catch-all for any other Python exception.  All of them derive from
`Exception`, which is what `send_apdu_failsafe` catches. -/
inductive SimError : Type
  | noCard : SimError
  | reader : SimError
  | protocol : SimError
  | other : SimError
  deriving DecidableEq, Repr

/-- A `(data, sw)` response pair.  `data` is the hex string of returned
data; `sw` is the hex status-word string, or `none` for a null status
word (`send_apdu` explicitly guards against `sw is None`). -/
structure Resp : Type where
  data : List Char
  sw : Option (List Char)
  deriving DecidableEq, Repr

/-- The raw transmission capability: given the number of raw calls
already performed and the pdu, either an exception or a response. -/
def RawCh : Type := Nat → List Char → Except SimError Resp

deriving instance DecidableEq for Except

/-- `LinkBase.send_apdu_failsafe(pdu, retry_attempts)`: tries the raw
channel once; on any exception, if `retry_attempts > 0`, recurses with
`retry_attempts - 1` on the same pdu, otherwise re-raises.  Returns the
outcome and the trace of pdus given to the raw channel; `idx` is the
number of raw calls already performed when this invocation starts. -/
def send_apdu_failsafe (ch : RawCh) (pdu : List Char) :
    Nat → Nat → Except SimError Resp × List (List Char)
  | 0, idx =>
    match ch idx pdu with
    | .ok r => (.ok r, [pdu])
    | .error e => (.error e, [pdu])
  | n + 1, idx =>
    match ch idx pdu with
    | .ok r => (.ok r, [pdu])
    | .error _ =>
      let p := send_apdu_failsafe ch pdu n (idx + 1)
      (p.1, pdu :: p.2)

/-- The chaining test of `LinkBase.send_apdu`:
`(sw[0:2] == '9f') or (sw[0:2] == '61')`. -/
def sw1_chains (sw : List Char) : Bool :=
  List.take 2 sw = ['9', 'f'] || List.take 2 sw = ['6', '1']

/-- The continuation (GET RESPONSE) command built by `LinkBase.send_apdu`:
`pdu[0:2] + 'c00000' + sw[2:4]`. -/
def get_response_pdu (pdu sw : List Char) : List Char :=
  List.take 2 pdu ++ ['c', '0', '0', '0', '0', '0'] ++ List.take 2 (List.drop 2 sw)

/-- `LinkBase.send_apdu(pdu, retry_attempts)`: one failsafe send; if the
status word is not None and its first two characters are '9f' or '61',
one further failsafe send of the continuation command, whose outcome
replaces the first; otherwise the first response is returned. -/
def send_apdu (ch : RawCh) (pdu : List Char) (retry_attempts idx : Nat) :
    Except SimError Resp × List (List Char) :=
  let f1 := send_apdu_failsafe ch pdu retry_attempts idx
  match f1.1 with
  | .error _ => f1
  | .ok r =>
    match r.sw with
    | none => f1
    | some sw =>
      if sw1_chains sw then
        let f2 := send_apdu_failsafe ch (get_response_pdu pdu sw) retry_attempts
          (idx + f1.2.length)
        (f2.1, f1.2 ++ f2.2)
      else f1

/-- Outcome of `LinkBase.send_apdu_checksw`: a returned response, a
raised `SwMatchError` carrying the observed sw and the lowercased
expected pattern, or a propagated transport exception. -/
inductive CheckswOut : Type
  | ok : Resp → CheckswOut
  | swMatchError : Option (List Char) → List Char → CheckswOut
  | exn : SimError → CheckswOut
  deriving DecidableEq, Repr

/-- `LinkBase.send_apdu_checksw(pdu, sw)`: calls `send_apdu` with the
default retry budget 0, then checks the returned status word with
`sw_match` (imported from `pySim.utils`, here the parameter `m`); on
mismatch raises `SwMatchError(rv[1], sw.lower())`, on match returns the
pair unchanged. -/
def send_apdu_checksw (m : Option (List Char) → List Char → Bool) (ch : RawCh)
    (pdu expected : List Char) (idx : Nat) : CheckswOut × List (List Char) :=
  match send_apdu ch pdu 0 idx with
  | (.error e, tr) => (.exn e, tr)
  | (.ok r, tr) =>
    if m r.sw expected then (.ok r, tr)
    else (.swMatchError r.sw (List.map Char.toLower expected), tr)

/-- Modelled from the spec: `sw_match` of `pySim.utils` is imported but
its source is not part of this repository.  Per the spec
(StatusWordMatcher) and the `send_apdu_checksw` docstring it compares an
observed status word with a 4-hex-digit pattern digit by digit,
case-insensitively, a `?` digit matching anything, and fails on length
mismatch; a null observed status word cannot match. -/
def sw_match (sw : Option (List Char)) (pat : List Char) : Bool :=
  match sw with
  | none => false
  | some s =>
    decide (s.length = pat.length) &&
      (List.zip s pat).all fun cp => cp.2 = '?' || Char.toLower cp.1 = Char.toLower cp.2

/-- `LinkBase.send_apdu_raw(pdu)` evaluated with `fuel` as the bound on
recursion depth.  Its body is `self.send_apdu_raw(pdu)`; on a
`PcscSimLink` instance, which defines only `_send_apdu_raw` and no
`send_apdu_raw`, dynamic dispatch resolves `self.send_apdu_raw` back to
this very method, so each step recurses on the same pdu without ever
reaching `_send_apdu_raw` or the connection's transmit.  `none` means no
result was produced within `fuel` nested calls. -/
def send_apdu_raw_fuel : Nat → List Char → Option (List Char × List Char)
  | 0, _ => none
  | n + 1, pdu => send_apdu_raw_fuel n pdu

theorem failsafe_ok (ch : RawCh) (pdu : List Char) (n idx : Nat) (r : Resp)
    (h : ch idx pdu = .ok r) :
    send_apdu_failsafe ch pdu n idx = (.ok r, [pdu]) := by
  cases n <;> simp [send_apdu_failsafe, h]

theorem failsafe_err_zero (ch : RawCh) (pdu : List Char) (idx : Nat) (e : SimError)
    (h : ch idx pdu = .error e) :
    send_apdu_failsafe ch pdu 0 idx = (.error e, [pdu]) := by
  simp [send_apdu_failsafe, h]

theorem failsafe_err_succ (ch : RawCh) (pdu : List Char) (n idx : Nat) (e : SimError)
    (h : ch idx pdu = .error e) :
    send_apdu_failsafe ch pdu (n + 1) idx =
      ((send_apdu_failsafe ch pdu n (idx + 1)).1,
        pdu :: (send_apdu_failsafe ch pdu n (idx + 1)).2) := by
  simp [send_apdu_failsafe, h]

theorem failsafe_trace_mem (ch : RawCh) (pdu : List Char) :
    ∀ n idx q, q ∈ (send_apdu_failsafe ch pdu n idx).2 → q = pdu := by
  intro n
  induction n with
  | zero =>
    intro idx q hq
    cases h : ch idx pdu with
    | ok r => rw [failsafe_ok ch pdu 0 idx r h] at hq; simpa using hq
    | error e => rw [failsafe_err_zero ch pdu idx e h] at hq; simpa using hq
  | succ n ih =>
    intro idx q hq
    cases h : ch idx pdu with
    | ok r => rw [failsafe_ok ch pdu (n + 1) idx r h] at hq; simpa using hq
    | error e =>
      rw [failsafe_err_succ ch pdu n idx e h] at hq
      rcases List.mem_cons.mp hq with hq | hq
      · exact hq
      · exact ih (idx + 1) q hq

/-- Claim C1: on a PcscSimLink instance, LinkBase.send_apdu_raw resolves
its recursive call back to itself (PcscSimLink defines only
_send_apdu_raw), so no amount of fuel makes it return a result: the send
chain never reaches the PC/SC connection's transmit through this
method. -/
theorem c1_send_apdu_raw_never_returns :
    ∀ fuel pdu, send_apdu_raw_fuel fuel pdu = none := by
  intro fuel
  induction fuel with
  | zero => intro pdu; rfl
  | succ n ih => intro pdu; exact ih pdu

/-- Claim C2 (counterexample): a raw channel that always raises
NoCardError, with retry budget 1: send_apdu_failsafe performs two raw
transmissions, not the single one that "surfaced immediately without
performing any retry" demands. -/
theorem c2_counterexample :
    send_apdu_failsafe (fun _ _ => .error .noCard) ['a', '0'] 1 0 =
      (.error .noCard, [['a', '0'], ['a', '0']]) ∧
    [['a', '0'], ['a', '0']] ≠ [(['a', '0'] : List Char)] :=
  ⟨by decide, by decide⟩

/-- Claim C2 (amended): an absence fault from the raw channel is caught
like any other exception: with retry budget n, send_apdu_failsafe
re-sends the identical pdu until the budget is exhausted, performing
n + 1 raw transmissions in all, and only then surfaces the fault. -/
theorem c2_absence_faults_retried (e : SimError) (pdu : List Char) :
    ∀ n idx, send_apdu_failsafe (fun _ _ => .error e) pdu n idx =
      (.error e, List.replicate (n + 1) pdu) := by
  intro n
  induction n with
  | zero => intro idx; simp [send_apdu_failsafe]
  | succ n ih =>
    intro idx
    simp [send_apdu_failsafe, ih (idx + 1), List.replicate_succ]

theorem failsafe_count_aux (ch : RawCh) (pdu : List Char) (err : Nat → SimError)
    (r : Resp) (k : Nat)
    (hf : ∀ i p, i < k → ch i p = .error (err i))
    (hs : ∀ i p, k ≤ i → ch i p = .ok r) :
    ∀ n idx,
      (k ≤ idx + n → idx ≤ k →
        send_apdu_failsafe ch pdu n idx = (.ok r, List.replicate (k - idx + 1) pdu))
      ∧ (idx + n < k →
        send_apdu_failsafe ch pdu n idx = (.error (err (idx + n)), List.replicate (n + 1) pdu)) := by
  intro n
  induction n with
  | zero =>
    intro idx
    constructor
    · intro h1 h2
      have hik : idx = k := by omega
      rw [failsafe_ok ch pdu 0 idx r (hs idx pdu (by omega))]
      simp [hik]
    · intro h1
      rw [failsafe_err_zero ch pdu idx (err idx) (hf idx pdu (by omega))]
      simp
  | succ n ih =>
    intro idx
    constructor
    · intro h1 h2
      rcases Nat.lt_or_ge idx k with hlt | hge
      · rw [failsafe_err_succ ch pdu n idx (err idx) (hf idx pdu hlt)]
        rw [(ih (idx + 1)).1 (by omega) (by omega)]
        have hkk : k - idx + 1 = (k - (idx + 1) + 1) + 1 := by omega
        rw [hkk]
        simp [List.replicate_succ]
      · rw [failsafe_ok ch pdu (n + 1) idx r (hs idx pdu hge)]
        have hik : idx = k := by omega
        simp [hik]
    · intro h1
      rw [failsafe_err_succ ch pdu n idx (err idx) (hf idx pdu (by omega))]
      rw [(ih (idx + 1)).2 (by omega)]
      have hadd : idx + 1 + n = idx + (n + 1) := by omega
      rw [hadd]
      simp [List.replicate_succ]

/-- Claim C4: against a raw channel that fails on its first k calls
(with exceptions err 0, ..., err (k-1)) and succeeds from call k on,
send_apdu_failsafe with budget n succeeds iff k ≤ n; on success it
performs exactly min k n + 1 raw calls, all with the identical pdu, and
when n < k it performs exactly n + 1 raw calls, all with the identical
pdu, before surfacing the last failure. -/
theorem c4_failsafe_retry_accounting (ch : RawCh) (pdu : List Char)
    (err : Nat → SimError) (r : Resp) (k n : Nat)
    (hf : ∀ i p, i < k → ch i p = .error (err i))
    (hs : ∀ i p, k ≤ i → ch i p = .ok r) :
    ((∃ d, (send_apdu_failsafe ch pdu n 0).1 = .ok d) ↔ k ≤ n)
    ∧ (k ≤ n →
        send_apdu_failsafe ch pdu n 0 = (.ok r, List.replicate (min k n + 1) pdu))
    ∧ (n < k →
        send_apdu_failsafe ch pdu n 0 = (.error (err n), List.replicate (n + 1) pdu)) := by
  have hmain := failsafe_count_aux ch pdu err r k hf hs n 0
  refine ⟨?_, ?_, ?_⟩
  · constructor
    · rintro ⟨d, hd⟩
      by_contra hkn
      rw [hmain.2 (by omega)] at hd
      simp at hd
    · intro hkn
      refine ⟨r, ?_⟩
      rw [hmain.1 (by omega) (by omega)]
  · intro hkn
    have := hmain.1 (by omega) (by omega)
    rw [Nat.min_eq_left hkn]
    simpa using this
  · intro hnk
    simpa using hmain.2 (by omega)

theorem send_apdu_of_err (ch : RawCh) (pdu : List Char) (n idx : Nat) (e : SimError)
    (tr : List (List Char))
    (hf : send_apdu_failsafe ch pdu n idx = (.error e, tr)) :
    send_apdu ch pdu n idx = (.error e, tr) := by
  unfold send_apdu
  rw [hf]

theorem send_apdu_of_none (ch : RawCh) (pdu : List Char) (n idx : Nat) (d : List Char)
    (tr : List (List Char))
    (hf : send_apdu_failsafe ch pdu n idx = (.ok ⟨d, none⟩, tr)) :
    send_apdu ch pdu n idx = (.ok ⟨d, none⟩, tr) := by
  unfold send_apdu
  rw [hf]

theorem send_apdu_of_nochain (ch : RawCh) (pdu : List Char) (n idx : Nat) (r : Resp)
    (sw : List Char) (tr : List (List Char))
    (hf : send_apdu_failsafe ch pdu n idx = (.ok r, tr))
    (hsw : r.sw = some sw) (hc : sw1_chains sw = false) :
    send_apdu ch pdu n idx = (.ok r, tr) := by
  unfold send_apdu
  rw [hf]
  simp [hsw, hc]

theorem send_apdu_of_chain (ch : RawCh) (pdu : List Char) (n idx : Nat) (r : Resp)
    (sw : List Char) (tr : List (List Char))
    (hf : send_apdu_failsafe ch pdu n idx = (.ok r, tr))
    (hsw : r.sw = some sw) (hc : sw1_chains sw = true) :
    send_apdu ch pdu n idx =
      ((send_apdu_failsafe ch (get_response_pdu pdu sw) n (idx + tr.length)).1,
        tr ++ (send_apdu_failsafe ch (get_response_pdu pdu sw) n (idx + tr.length)).2) := by
  unfold send_apdu
  rw [hf]
  simp [hsw, hc]

/-- Claim C7: when the first response carries a non-null status word
whose first two characters are neither '9f' nor '61', send_apdu returns
that first response exactly as received, and its raw-transmission trace
is exactly the first failsafe send's trace: no additional
transmission. -/
theorem c7_non_chaining_unchanged (ch : RawCh) (pdu : List Char) (n idx : Nat)
    (r : Resp) (sw : List Char) (tr : List (List Char))
    (hf : send_apdu_failsafe ch pdu n idx = (.ok r, tr))
    (hsw : r.sw = some sw)
    (h9f : List.take 2 sw ≠ ['9', 'f']) (h61 : List.take 2 sw ≠ ['6', '1']) :
    send_apdu ch pdu n idx = (.ok r, tr) := by
  apply send_apdu_of_nochain ch pdu n idx r sw tr hf hsw
  simp [sw1_chains, h9f, h61]

/-- Claim C9: the chaining trigger compares the status-word string
case-sensitively: it fires exactly on the lowercase literals '9f' and
'61', and a first response whose status word is the uppercase string
'9F05' is returned unchanged, with no continuation command sent. -/
theorem c9_trigger_case_sensitive :
    (∀ sw : List Char, sw1_chains sw = true ↔
      (List.take 2 sw = ['9', 'f'] ∨ List.take 2 sw = ['6', '1']))
    ∧ ∀ (ch : RawCh) (pdu : List Char) (n idx : Nat) (d : List Char)
        (tr : List (List Char)),
        send_apdu_failsafe ch pdu n idx = (.ok ⟨d, some ['9', 'F', '0', '5']⟩, tr) →
        send_apdu ch pdu n idx = (.ok ⟨d, some ['9', 'F', '0', '5']⟩, tr) := by
  constructor
  · intro sw
    simp [sw1_chains]
  · intro ch pdu n idx d tr hf
    exact send_apdu_of_nochain ch pdu n idx _ _ tr hf rfl (by decide)

/-- Claim C10: when the failsafe send returns a response with a null
status word, the `sw is not None` guard keeps send_apdu from inspecting
SW1, and the pair (data, None) is returned to the caller unchanged. -/
theorem c10_null_sw_passthrough (ch : RawCh) (pdu : List Char) (n idx : Nat)
    (d : List Char) (tr : List (List Char))
    (hf : send_apdu_failsafe ch pdu n idx = (.ok ⟨d, none⟩, tr)) :
    send_apdu ch pdu n idx = (.ok ⟨d, none⟩, tr) :=
  send_apdu_of_none ch pdu n idx d tr hf

/-- The select command of the worked example: 'A0A40000023F00'. -/
def pduA : List Char := ['A', '0', 'A', '4', '0', '0', '0', '0', '0', '2', '3', 'F', '0', '0']

/-- The continuation command built for pduA and first status '9f05':
'A0c0000005'. -/
def grA : List Char := ['A', '0', 'c', '0', '0', '0', '0', '0', '0', '5']

/-- A successful response with status word '9000'. -/
def resp9000 : Resp := ⟨['0', '7'], some ['9', '0', '0', '0']⟩

/-- An empty response with chaining status word '9f05'. -/
def resp9f05 : Resp := ⟨[], some ['9', 'f', '0', '5']⟩

/-- A response whose status word '6112' again reports more data. -/
def resp6112 : Resp := ⟨['a', 'b'], some ['6', '1', '1', '2']⟩

/-- A channel answering '9f05' on its first call and '9000' with data on
every later call. -/
def chA : RawCh := fun i _ => if i = 0 then .ok resp9f05 else .ok resp9000

/-- A channel answering '9f05' on its first call and '6112' on every
later call. -/
def chD : RawCh := fun i _ => if i = 0 then .ok resp9f05 else .ok resp6112

/-- A channel that always answers status word '6A82'. -/
def chB : RawCh := fun _ _ => .ok ⟨[], some ['6', 'A', '8', '2']⟩

/-- A channel that fails with ProtocolError on its first two calls and
answers '9000' with data from the third call on. -/
def chK : RawCh := fun i _ => if i < 2 then .error .protocol else .ok resp9000

/-- Claim C3 (counterexample): for pdu 'A0A40000023F00' and a first
response with status '9f05', the continuation command actually sent is
'A0c0000005', whose first two bytes (four hex characters) 'A0c0' differ
from the original pdu's first two bytes 'A0A4': the instruction byte is
not taken from the pdu. -/
theorem c3_counterexample :
    (send_apdu chA pduA 0 0).2 = [pduA, grA]
    ∧ List.take 4 grA ≠ List.take 4 pduA :=
  ⟨by decide, by decide⟩

/-- Claim C3 (amended): when the first response triggers chaining, the
continuation command that send_apdu then sends copies only the class
byte from the original pdu: its first two hex characters equal the
pdu's first two, and the following two (the instruction byte) are the
fixed 'c0'. -/
theorem c3_continuation_class_only (ch : RawCh) (pdu : List Char) (n idx : Nat)
    (r : Resp) (sw : List Char) (tr : List (List Char))
    (hp : 2 ≤ pdu.length)
    (hf : send_apdu_failsafe ch pdu n idx = (.ok r, tr))
    (hsw : r.sw = some sw)
    (hc : List.take 2 sw = ['9', 'f'] ∨ List.take 2 sw = ['6', '1']) :
    send_apdu ch pdu n idx =
      ((send_apdu_failsafe ch (get_response_pdu pdu sw) n (idx + tr.length)).1,
        tr ++ (send_apdu_failsafe ch (get_response_pdu pdu sw) n (idx + tr.length)).2)
    ∧ List.take 2 (get_response_pdu pdu sw) = List.take 2 pdu
    ∧ List.take 2 (List.drop 2 (get_response_pdu pdu sw)) = ['c', '0'] := by
  have hcb : sw1_chains sw = true := by
    rcases hc with h | h <;> simp [sw1_chains, h]
  refine ⟨send_apdu_of_chain ch pdu n idx r sw tr hf hsw hcb, ?_, ?_⟩
  · rcases pdu with _ | ⟨a, _ | ⟨b, t⟩⟩
    · simp at hp
    · simp at hp
    · rfl
  · rcases pdu with _ | ⟨a, _ | ⟨b, t⟩⟩
    · simp at hp
    · simp at hp
    · rfl

/-- Claim C5: when the first response's status word begins with '9f' or
'61', send_apdu builds the continuation command from the class byte (the
pdu's first two hex characters), the fixed characters 'c00000' and SW2
(the status word's third and fourth characters), hands exactly that
command to a second failsafe send (so every raw transmission after the
first batch carries it), and returns the second send's outcome as the
final result, discarding the first response's data. -/
theorem c5_chaining_builds_get_response (ch : RawCh) (pdu : List Char) (n idx : Nat)
    (r : Resp) (sw : List Char) (tr : List (List Char))
    (hf : send_apdu_failsafe ch pdu n idx = (.ok r, tr))
    (hsw : r.sw = some sw)
    (hc : List.take 2 sw = ['9', 'f'] ∨ List.take 2 sw = ['6', '1']) :
    get_response_pdu pdu sw
      = List.take 2 pdu ++ ['c', '0', '0', '0', '0', '0'] ++ List.take 2 (List.drop 2 sw)
    ∧ send_apdu ch pdu n idx =
        ((send_apdu_failsafe ch (get_response_pdu pdu sw) n (idx + tr.length)).1,
          tr ++ (send_apdu_failsafe ch (get_response_pdu pdu sw) n (idx + tr.length)).2)
    ∧ ∀ q ∈ (send_apdu_failsafe ch (get_response_pdu pdu sw) n (idx + tr.length)).2,
        q = get_response_pdu pdu sw := by
  have hcb : sw1_chains sw = true := by
    rcases hc with h | h <;> simp [sw1_chains, h]
  exact ⟨rfl, send_apdu_of_chain ch pdu n idx r sw tr hf hsw hcb,
    failsafe_trace_mem ch (get_response_pdu pdu sw) n (idx + tr.length)⟩

/-- Claim C6: send_apdu chains at most once.  Its outcome is either the
first failsafe send's outcome verbatim or, after one chase, the second
failsafe send's outcome verbatim, its trace the two sends' traces; in
particular when the continuation response's own status word again begins
with '9f' or '61' it is still returned as the final result, with no
further continuation command issued. -/
theorem c6_single_shot_chaining (ch : RawCh) (pdu : List Char) (n idx : Nat) :
    (send_apdu ch pdu n idx = send_apdu_failsafe ch pdu n idx
      ∨ ∃ sw : List Char, send_apdu ch pdu n idx =
          ((send_apdu_failsafe ch (get_response_pdu pdu sw) n
              (idx + (send_apdu_failsafe ch pdu n idx).2.length)).1,
            (send_apdu_failsafe ch pdu n idx).2 ++
              (send_apdu_failsafe ch (get_response_pdu pdu sw) n
                (idx + (send_apdu_failsafe ch pdu n idx).2.length)).2))
    ∧ ∀ (r r2 : Resp) (sw sw2 : List Char) (tr tr2 : List (List Char)),
        send_apdu_failsafe ch pdu n idx = (.ok r, tr) →
        r.sw = some sw → sw1_chains sw = true →
        send_apdu_failsafe ch (get_response_pdu pdu sw) n (idx + tr.length) =
          (.ok r2, tr2) →
        r2.sw = some sw2 → sw1_chains sw2 = true →
        send_apdu ch pdu n idx = (.ok r2, tr ++ tr2) := by
  constructor
  · rcases hf : send_apdu_failsafe ch pdu n idx with ⟨res, tr⟩
    cases res with
    | error e =>
      left
      rw [send_apdu_of_err ch pdu n idx e tr hf]
    | ok r =>
      rcases r with ⟨d, _ | sw⟩
      · left
        rw [send_apdu_of_none ch pdu n idx d tr hf]
      · cases hcb : sw1_chains sw with
        | false =>
          left
          rw [send_apdu_of_nochain ch pdu n idx ⟨d, some sw⟩ sw tr hf rfl hcb]
        | true =>
          right
          refine ⟨sw, ?_⟩
          rw [send_apdu_of_chain ch pdu n idx ⟨d, some sw⟩ sw tr hf rfl hcb]
  · intro r r2 sw sw2 tr tr2 hf hsw hcb hf2 hsw2 hcb2
    rw [send_apdu_of_chain ch pdu n idx r sw tr hf hsw hcb, hf2]

/-- Claim C8: send_apdu_checksw sends via send_apdu with the default
retry budget 0; whatever matcher stands for sw_match, when the result's
status word fails the matcher against the expected pattern it raises
SwMatchError carrying the observed status word and the lowercased
expected pattern, and when it passes it returns the (data, sw) pair of
send_apdu unchanged. -/
theorem c8_checksw_guard (m : Option (List Char) → List Char → Bool) (ch : RawCh)
    (pdu expected : List Char) (idx : Nat) (r : Resp) (tr : List (List Char))
    (h : send_apdu ch pdu 0 idx = (.ok r, tr)) :
    (m r.sw expected = false →
      send_apdu_checksw m ch pdu expected idx =
        (.swMatchError r.sw (List.map Char.toLower expected), tr))
    ∧ (m r.sw expected = true →
      send_apdu_checksw m ch pdu expected idx = (.ok r, tr)) := by
  unfold send_apdu_checksw
  rw [h]
  constructor <;> intro hm <;> simp [hm]

/-- Witness for C3 (amended) at pdu 'A0A40000023F00' and first status
'9f05'. -/
theorem c3_witness :
    List.take 2 (get_response_pdu pduA ['9', 'f', '0', '5']) = List.take 2 pduA
    ∧ List.take 2 (List.drop 2 (get_response_pdu pduA ['9', 'f', '0', '5'])) = ['c', '0'] := by
  have h := c3_continuation_class_only chA pduA 0 0 resp9f05 ['9', 'f', '0', '5']
    [pduA] (by decide) rfl rfl (Or.inl rfl)
  exact ⟨h.2.1, h.2.2⟩

/-- Witness for C4: a channel failing on its first two calls, with
budgets 5 (success after 3 calls) and 1 (failure after 2 calls). -/
theorem c4_witness :
    send_apdu_failsafe chK ['a'] 5 0 = (.ok resp9000, List.replicate 3 ['a'])
    ∧ send_apdu_failsafe chK ['a'] 1 0 = (.error .protocol, List.replicate 2 ['a']) := by
  have hhf : ∀ i p, i < 2 → chK i p = .error .protocol := by
    intro i p hi
    simp [chK, hi]
  have hhs : ∀ i p, 2 ≤ i → chK i p = .ok resp9000 := by
    intro i p hi
    simp [chK, Nat.not_lt.mpr hi]
  constructor
  · have h := (c4_failsafe_retry_accounting chK ['a'] (fun _ => .protocol) resp9000
      2 5 hhf hhs).2.1 (by omega)
    rw [h]
    decide
  · have h := (c4_failsafe_retry_accounting chK ['a'] (fun _ => .protocol) resp9000
      2 1 hhf hhs).2.2 (by omega)
    rw [h]

/-- Witness for C5: the worked example of the spec, with lowercase first
status '9f05': continuation 'A0c0000005', final pair the
continuation's. -/
theorem c5_witness :
    get_response_pdu pduA ['9', 'f', '0', '5'] = grA
    ∧ send_apdu chA pduA 0 0 = (.ok resp9000, [pduA, grA]) := by
  have h := c5_chaining_builds_get_response chA pduA 0 0 resp9f05 ['9', 'f', '0', '5']
    [pduA] rfl rfl (Or.inl rfl)
  refine ⟨by decide, ?_⟩
  rw [h.2.1]
  decide

/-- Witness for C6: the continuation response '6112' again reports more
data but is returned as final, after exactly two raw transmissions. -/
theorem c6_witness :
    send_apdu chD pduA 0 0 = (.ok resp6112, [pduA, grA]) := by
  have h := (c6_single_shot_chaining chD pduA 0 0).2 resp9f05 resp6112
    ['9', 'f', '0', '5'] ['6', '1', '1', '2'] [pduA] [grA] rfl rfl (by decide)
    (by decide) rfl (by decide)
  simpa using h

/-- Witness for C7: a first response '9000' is returned unchanged with a
single raw transmission. -/
theorem c7_witness :
    send_apdu (fun _ _ => .ok resp9000) pduA 2 0 = (.ok resp9000, [pduA]) :=
  c7_non_chaining_unchanged (fun _ _ => .ok resp9000) pduA 2 0 resp9000
    ['9', '0', '0', '0'] [pduA] rfl rfl (by decide) (by decide)

/-- Witness for C8, with the matcher instantiated by the spec-modelled
sw_match: status '6A82' against expected '9000' raises SwMatchError
carrying ('6A82', '9000'); a '9000' response passes unchanged. -/
theorem c8_witness :
    send_apdu_checksw sw_match chB pduA ['9', '0', '0', '0'] 0 =
      (.swMatchError (some ['6', 'A', '8', '2']) ['9', '0', '0', '0'], [pduA])
    ∧ send_apdu_checksw sw_match chA pduA ['9', '0', '0', '0'] 0 =
      (.ok resp9000, [pduA, grA]) := by
  constructor
  · have h := (c8_checksw_guard sw_match chB pduA ['9', '0', '0', '0'] 0
      ⟨[], some ['6', 'A', '8', '2']⟩ [pduA] rfl).1 (by decide)
    rw [h]
    decide
  · exact (c8_checksw_guard sw_match chA pduA ['9', '0', '0', '0'] 0 resp9000
      [pduA, grA] (by rfl)).2 (by decide)

/-- Witness for C9: a channel answering the uppercase status '9F05'
leaves send_apdu's response unchanged after one raw transmission. -/
theorem c9_witness :
    send_apdu (fun _ _ => .ok ⟨[], some ['9', 'F', '0', '5']⟩) pduA 3 0 =
      (.ok ⟨[], some ['9', 'F', '0', '5']⟩, [pduA]) :=
  c9_trigger_case_sensitive.2 (fun _ _ => .ok ⟨[], some ['9', 'F', '0', '5']⟩)
    pduA 3 0 [] [pduA] rfl

/-- Witness for C10: a null status word is passed through unchanged. -/
theorem c10_witness :
    send_apdu (fun _ _ => .ok ⟨['a', 'b'], none⟩) ['a'] 2 0 =
      (.ok ⟨['a', 'b'], none⟩, [['a']]) :=
  c10_null_sw_passthrough (fun _ _ => .ok ⟨['a', 'b'], none⟩) ['a'] 2 0
    ['a', 'b'] [['a']] rfl
